import Mathlib

/-!
Shallow embedding of the `agents-service` orchestration layer.

Source files embedded:
  * `app/orchestrator/agent_orchestrator.py` — the six workflows and their helpers
  * `app/services/gemini_client.py`        — `GeminiClient.chat` up to the HTTP boundary
  * `app/services/mock_agent.py`           — `MockAgent.chat` and the savings-plan formula
  * `app/api/rest.py`                      — `ChatMessageModel` / `ChatRequest` validation
  * `app/services/gateway_client.py`       — method signatures (arity of `classify_transaction`)

Conventions:
  * Python `float` amounts are modelled as `ℚ` (exact arithmetic; no rounding
    claim is at stake).  `int` is `Int`.
  * External collaborators (gateway, model, OCR, notifier) are oracles: their
    responses are inputs of the embedded workflow, and every outbound call is
    recorded in an ordered `Effect` trace.
  * Fallible Python code returns `Except PyErr`; an uncaught exception is
    `Except.error`.
  * Prompt strings exist only to be sent to the model oracle, whose reply is
    already a parameter, so their text is not reproduced; the parts of prompt
    construction that can raise (`_format_goals`'s division) are embedded.
-/

namespace AgentsService

/-! ## Python string primitives -/

/-- Python `str.strip()` on the character list: drop whitespace from both ends. -/
def pyStripList (l : List Char) : List Char :=
  ((l.dropWhile Char.isWhitespace).reverse.dropWhile Char.isWhitespace).reverse

/-- Python `str.strip()` (Unicode-whitespace classification abstracted to
`Char.isWhitespace`). -/
def pyStrip (s : String) : String :=
  ⟨pyStripList s.data⟩

/-- Python `needle in hay` substring test. -/
def listContainsSub (hay pat : List Char) : Bool :=
  match hay with
  | [] => pat.isEmpty
  | _ :: t => pat.isPrefixOf hay || listContainsSub t pat

/-- Python `pat in s` on strings. -/
def strContains (s pat : String) : Bool :=
  listContainsSub s.data pat.data

/-- Python `any(word in m for word in words)`. -/
def containsAny (s : String) (words : List String) : Bool :=
  words.any (fun w => strContains s w)

/-- Python `s.lower()` (ASCII lowering, mapped characterwise; the keyword
lists and needles the code compares against are already lower-case). -/
def pyLower (s : String) : String :=
  ⟨s.data.map Char.toLower⟩

/-- Division that records Python's `ZeroDivisionError` as `none`. -/
def safeDiv (a b : ℚ) : Option ℚ :=
  if b = 0 then none else some (a / b)

/-! ## Python runtime errors -/

/-- The uncaught exceptions the embedded code can raise.  Python's
`AttributeError` is folded into `typeError` (both mark a value of the wrong
shape reaching an operation; no claim distinguishes them). -/
inductive PyErr where
  | typeError (msg : String)
  | keyError (key : String)
  | runtimeError (msg : String)
  | zeroDivisionError
  deriving DecidableEq, Repr

/-! ## Model (Gemini) response shape

The shape every call site consumes:
`{"candidates": [{"content": {"parts": [{"text": ...}]}}]}`. -/

/-- One entry of a candidate's `parts` array; `p.get("text", "")` is `text`. -/
structure GemPart where
  text : String
  deriving DecidableEq, Repr

/-- A candidate's `content` object. -/
structure GemContent where
  parts : List GemPart
  deriving DecidableEq, Repr

/-- One entry of `candidates`. -/
structure GemCandidate where
  content : GemContent
  deriving DecidableEq, Repr

/-- A model chat response. -/
structure GemResp where
  candidates : List GemCandidate
  deriving DecidableEq, Repr

/-- `AgentOrchestrator._extract_gemini_text` (agent_orchestrator.py:180-185):
empty string when there is no candidate, else the space-join of the first
candidate's part texts, stripped. -/
def extract_gemini_text (r : GemResp) : String :=
  match r.candidates with
  | [] => ""
  | c :: _ => pyStrip (String.intercalate " " (c.content.parts.map GemPart.text))

/-! ## Gateway entities

Typed per the fields the gateway GraphQL queries select (gateway_client.py);
fields the orchestrator never reads are omitted. -/

/-- A budget row (`budgetsByUser`). -/
structure Budget where
  category : String
  limitAmount : ℚ
  periodStart : String
  periodEnd : String
  deriving DecidableEq, Repr

/-- A transaction row as consumed via `t.get("amount", 0)` etc.; only the
amount participates in any computation. -/
structure Tx where
  amount : ℚ
  deriving DecidableEq, Repr

/-- An account row (`accountsByUser`). -/
structure Account where
  balance : ℚ
  deriving DecidableEq, Repr

/-- A goal row (`goals`): `currentAmount` and `targetAmount` feed
`_format_goals`'s progress division. -/
structure Goal where
  name : String
  targetAmount : ℚ
  currentAmount : ℚ
  deriving DecidableEq, Repr

/-- A spending-pattern row (`analyzeSpendingPatterns`). -/
structure Pattern where
  patternType : String
  deriving DecidableEq, Repr

/-- A forecast row (`generateForecast`); passed through to the caller. -/
structure Forecast where
  predictedAmount : ℚ
  trend : String
  deriving DecidableEq, Repr

/-- A prediction row (`predictions`); the alert workflow only counts them. -/
structure Prediction where
  predictedCategory : String
  confidence : ℚ
  deriving DecidableEq, Repr

/-- The gateway's `registerTransaction` response, passed through opaquely. -/
structure TxResp where
  id : String
  deriving DecidableEq, Repr

/-- The OCR response as consumed via `ocr_result.get("text", "")`. -/
structure OcrResp where
  textField : Option String
  deriving DecidableEq, Repr

/-- `ocr_result.get("text", "")`. -/
def OcrResp.getText (r : OcrResp) : String :=
  r.textField.getD ""

/-- `classifyTransaction` response as consumed via
`classification.get("predictedCategory", "Otros")` / `.get("confidence", 0.0)`. -/
structure ClassifyResp where
  predictedCategory : Option String
  confidence : Option ℚ
  deriving DecidableEq, Repr

/-! ## Workflow results and effect traces -/

/-- Values appearing in a workflow's result dictionary. -/
inductive RVal where
  | s (v : String)
  | q (v : ℚ)
  | i (v : Int)
  | tx (v : TxResp)
  | pats (v : List Pattern)
  | fcast (v : List Forecast)
  deriving DecidableEq, Repr

/-- A workflow result: the string-keyed Python dict, in insertion order. -/
def PyDict := List (String × RVal)

instance : DecidableEq PyDict := by
  unfold PyDict; infer_instance

/-- `d.get(k)`: first binding wins (Python dict literals here have no
duplicate keys). -/
def dictLookup (d : PyDict) (k : String) : Option RVal :=
  (d.find? (fun kv => kv.1 == k)).map (fun kv => kv.2)

/-- One outbound call of a workflow, in execution order.  The model prompt is
not recorded (the model's reply is an oracle input of each workflow), and
`registerTx` keeps only the account id: some register payload fields are raw
parsed-JSON values and no claim inspects any of them. -/
inductive Effect where
  | getUserBudgets (userId : String)
  | getRecentTransactions (userId : String) (limit : Nat)
  | getUserAccounts (userId : String)
  | getUserGoals (userId : String)
  | getPredictions (limit : Nat)
  | analyzeSpendingPatterns (userId : String)
  | generateForecast (months : Nat)
  | classifyTx (text : String)
  | geminiChat
  | mistralOcr (url : String)
  | registerTx (accountId : String)
  | notify (userId title message ntype : String)
  deriving DecidableEq, Repr

/-! ## `_calculate_avg_expense` (agent_orchestrator.py:201-203) -/

/-- `expenses = [float(t.get("amount", 0)) for t in transactions if t.get("amount", 0) < 0]`. -/
def negativeAmounts (transactions : List Tx) : List ℚ :=
  (transactions.filter (fun t => t.amount < 0)).map Tx.amount

/-- `abs(sum(expenses) / len(expenses)) if expenses else 0.0`. -/
def calculate_avg_expense (transactions : List Tx) : ℚ :=
  let expenses := negativeAmounts transactions
  if expenses.isEmpty then 0 else |expenses.sum / (expenses.length : ℚ)|

/-- `_calculate_avg_expense` with the division checked: `none` would mark a
`ZeroDivisionError`. -/
def calculate_avg_expense_checked (transactions : List Tx) : Option ℚ :=
  let expenses := negativeAmounts transactions
  if expenses.isEmpty then some 0
  else (safeDiv expenses.sum (expenses.length : ℚ)).map (fun q => |q|)

/-! ## Parsed JSON values (for `_parse_transaction_from_gemini`) -/

/-- A Python value deserialised by `json.loads`. -/
inductive PyVal where
  | str (s : String)
  | num (q : ℚ)
  | boolean (b : Bool)
  | null
  | arr (xs : List PyVal)
  | obj (kvs : List (String × PyVal))

/-- A Python dict with string keys. -/
abbrev PyObj := List (String × PyVal)

/-- `o.get(k)` as an `Option`. -/
def objGet (o : PyObj) (k : String) : Option PyVal :=
  (o.find? (fun kv => kv.1 == k)).map Prod.snd

/-- `o.get(k, d)`. -/
def objGetD (o : PyObj) (k : String) (d : PyVal) : PyVal :=
  (objGet o k).getD d

/-- `o[k]`: `KeyError` when the key is absent. -/
def keyGet (o : PyObj) (k : String) : Except PyErr PyVal :=
  match objGet o k with
  | some v => .ok v
  | none => .error (.keyError k)

/-- Python string interpolation of a value.  Numeric (and container)
rendering is abstracted to a placeholder: the only strings built from it are
notification messages that no claim inspects. -/
def pyValText : PyVal → String
  | .str s => s
  | .num _ => "<número>"
  | .boolean b => if b then "True" else "False"
  | .null => "None"
  | .arr _ => "<lista>"
  | .obj _ => "<objeto>"

/-- Python `text.find(c)`: index of the first occurrence, `none` for `-1`. -/
def strFind (s : String) (c : Char) : Option Nat :=
  s.data.findIdx? (fun a => a == c)

/-- Python `text.rfind(c)`: index of the last occurrence, `none` for `-1`. -/
def strRFind (s : String) (c : Char) : Option Nat :=
  (s.data.reverse.findIdx? (fun a => a == c)).map (fun i => s.data.length - 1 - i)

/-- `text[start:end]` with `start = text.find("{")`, `end = text.rfind("}") + 1`,
under the source's guard `start >= 0 and end > start`
(agent_orchestrator.py:192-196). -/
def braceSpan (text : String) : Option String :=
  match strFind text '{' , strRFind text '}' with
  | some start, some last =>
      if start ≤ last then some ⟨(text.data.drop start).take (last + 1 - start)⟩
      else none
  | _, _ => none

/-- `AgentOrchestrator._parse_transaction_from_gemini`
(agent_orchestrator.py:187-199).  `jsonLoads` is the `json.loads` oracle;
`none` stands both for a raising parse (caught by the `except` clause) and for
the guard failing (no brace span), either of which makes the method return
`None`. -/
def parse_transaction_from_gemini (jsonLoads : String → Option PyObj)
    (response : GemResp) : Option PyObj :=
  (braceSpan (extract_gemini_text response)).bind jsonLoads

/-! ## Workflow 1: `run_budget_audit` (agent_orchestrator.py:24-68)

The prompt built from `_build_budget_context` is sent to the model oracle,
whose reply `gresp` is already a parameter, so its text is not reproduced;
context building reads only fields the typed rows always carry. -/

/-- `run_budget_audit`. -/
def run_budget_audit (userId : String) (budgets : List Budget)
    (_transactions : List Tx) (gresp : GemResp) : PyDict × List Effect :=
  let reads := [Effect.getUserBudgets userId, Effect.getRecentTransactions userId 20]
  if budgets.isEmpty then
    ([("status", .s "no_budgets"), ("message", .s "Usuario sin presupuestos configurados.")],
      reads)
  else
    let analysis := extract_gemini_text gresp
    let notif :=
      if strContains (pyLower analysis) "alerta" || strContains (pyLower analysis) "excedido" then
        [Effect.notify userId "Alerta de Presupuesto" (analysis.take 200) "WARNING"]
      else []
    (([("status", .s "completed"), ("analysis", .s analysis),
        ("budgets_reviewed", .i budgets.length)]),
      reads ++ [Effect.geminiChat] ++ notif)

/-! ## Workflow 2: `process_document_and_register` (agent_orchestrator.py:70-124) -/

/-- The `{"status": "error", ...}` result when the OCR text is empty. -/
def docNoTextError : PyDict :=
  [("status", .s "error"), ("message", .s "No se pudo extraer texto del documento.")]

/-- The `{"status": "error", ...}` result when the model reply is unparseable. -/
def docNoParseError : PyDict :=
  [("status", .s "error"), ("message", .s "No se pudo interpretar el documento.")]

/-- `process_document_and_register`.  `txr` is the gateway's reply to the
`registerTransaction` mutation (reached only on the success path). -/
def process_document_and_register (jsonLoads : String → Option PyObj)
    (userId documentUrl accountId : String) (ocr : OcrResp) (gresp : GemResp)
    (txr : TxResp) : Except PyErr (PyDict × List Effect) :=
  let extractedText := ocr.getText
  if extractedText = "" then
    .ok (docNoTextError, [Effect.mistralOcr documentUrl])
  else
    match parse_transaction_from_gemini jsonLoads gresp with
    | none => .ok (docNoParseError, [Effect.mistralOcr documentUrl, Effect.geminiChat])
    | some parsed =>
      -- `if not parsed:` — the empty dict is also falsy
      if parsed.isEmpty then
        .ok (docNoParseError, [Effect.mistralOcr documentUrl, Effect.geminiChat])
      else
        -- keyword arguments of `register_transaction` are evaluated in source order
        match keyGet parsed "amount" with
        | .error e => .error e
        | .ok amount =>
          match keyGet parsed "category" with
          | .error e => .error e
          | .ok category =>
            match keyGet parsed "description" with
            | .error e => .error e
            | .ok _description =>
              .ok ([("status", .s "success"), ("transaction", .tx txr),
                    ("ocr_text", .s extractedText)],
                   [Effect.mistralOcr documentUrl, Effect.geminiChat,
                    Effect.registerTx accountId,
                    Effect.notify userId "Transacción Registrada"
                      ("Se registró un gasto de " ++ pyValText amount ++ " en "
                        ++ pyValText category ++ ".") "INFO"])

/-! ## Workflow 3: `generate_savings_plan` (agent_orchestrator.py:126-167) -/

/-- `generate_savings_plan`.  `total_balance` and `avg_expense` feed only the
elided prompt; the underscore bindings keep them where the source computes
them. -/
def generate_savings_plan (userId : String) (targetAmount : ℚ) (months : Int)
    (accounts : List Account) (transactions : List Tx) (gresp : GemResp) :
    PyDict × List Effect :=
  let _totalBalance := (accounts.map Account.balance).sum
  let _avgExpense := calculate_avg_expense transactions
  let plan := extract_gemini_text gresp
  ([("status", .s "success"), ("plan", .s plan), ("target", .q targetAmount),
    ("months", .i months)],
   [Effect.getUserAccounts userId, Effect.getRecentTransactions userId 30,
    Effect.geminiChat,
    Effect.notify userId "Plan de Ahorro Generado"
      ("Tu plan para ahorrar <número> está listo. Revisa los detalles.") "INFO"])

/-- `generate_savings_plan` with its single division (inside
`_calculate_avg_expense`) checked: `none` would mark a `ZeroDivisionError`. -/
def generate_savings_plan_checked (userId : String) (targetAmount : ℚ)
    (months : Int) (accounts : List Account) (transactions : List Tx)
    (gresp : GemResp) : Option (PyDict × List Effect) :=
  (calculate_avg_expense_checked transactions).map
    (fun _ => generate_savings_plan userId targetAmount months accounts transactions gresp)

/-! ## Workflow 4: `smart_categorize_transaction` (agent_orchestrator.py:207-261)

agent_orchestrator.py:218 calls `self.gateway.classify_transaction(transaction_text)`
with one positional argument, but `GatewayClient.classify_transaction`
(gateway_client.py:213) declares two parameters without defaults, `text` and
`amount`.  Python therefore raises
`TypeError: classify_transaction() missing 1 required positional argument: 'amount'`
at the call, before any classification happens.  The embedding guards the
call with the arity check; the branch the source intends is embedded under
the (false) guard. -/

/-- Required positional parameters of `GatewayClient.classify_transaction`
(gateway_client.py:213), after `self`. -/
def classify_transaction_params : List String := ["text", "amount"]

/-- Number of positional arguments the orchestrator passes at
agent_orchestrator.py:218: only `transaction_text`. -/
def smart_categorize_classify_argc : Nat := 1

/-- `smart_categorize_transaction`. -/
def smart_categorize_transaction (userId transactionText accountId : String)
    (_amount : ℚ) (classification : ClassifyResp) (gresp : GemResp) (txr : TxResp) :
    Except PyErr (PyDict × List Effect) :=
  if smart_categorize_classify_argc = classify_transaction_params.length then
    -- dead in the source as written: the guard above is false
    let predicted := classification.predictedCategory.getD "Otros"
    let confidence := classification.confidence.getD 0
    let branch :=
      if confidence < 0.7 then (pyStrip (extract_gemini_text gresp), [Effect.geminiChat])
      else (predicted, ([] : List Effect))
    let finalCategory := branch.1
    .ok ([("status", .s "success"), ("transaction", .tx txr),
          ("category", .s finalCategory), ("ml_confidence", .q confidence),
          ("method", .s (if confidence ≥ 0.7 then "ml" else "gemini_assisted"))],
         [Effect.classifyTx transactionText] ++ branch.2 ++
          [Effect.registerTx accountId,
           Effect.notify userId "Transacción Categorizada"
             ("Se registró <número> en " ++ finalCategory ++ " (confianza ML: <número>).")
             "INFO"])
  else
    .error (.typeError
      "classify_transaction() missing 1 required positional argument: amount")

/-! ## Workflow 5: `generate_financial_insights` (agent_orchestrator.py:263-341) -/

/-- The raising part of `_format_goals` (agent_orchestrator.py:436-443): the
progress of each of the first five goals divides by
`float(g.get("targetAmount", 1))`, a `ZeroDivisionError` when a goal's target
amount is 0.  String assembly is elided: the result feeds only the model
prompt. -/
def format_goals_check (goals : List Goal) : Except PyErr Unit :=
  if goals.isEmpty then .ok ()
  else (goals.take 5).forM (fun g =>
    if g.targetAmount = 0 then .error .zeroDivisionError else .ok ())

/-- `generate_financial_insights`.  `now` stands for
`datetime.now().isoformat()`. -/
def generate_financial_insights (userId : String) (patterns : List Pattern)
    (forecast : List Forecast) (_budgets : List Budget) (goals : List Goal)
    (_accounts : List Account) (gresp : GemResp) (now : String) :
    Except PyErr (PyDict × List Effect) :=
  match format_goals_check goals with
  | .error e => .error e
  | .ok _ =>
    let analysis := extract_gemini_text gresp
    .ok ([("status", .s "success"), ("patterns", .pats patterns),
          ("forecast", .fcast forecast), ("analysis", .s analysis),
          ("generated_at", .s now)],
         [Effect.analyzeSpendingPatterns userId, Effect.generateForecast 3,
          Effect.getUserBudgets userId, Effect.getUserGoals userId,
          Effect.getUserAccounts userId, Effect.geminiChat,
          Effect.notify userId "Reporte Financiero Mensual"
            "Tu análisis financiero personalizado está listo. Revisa los insights y recomendaciones."
            "INFO"])

/-! ## Workflow 6: `proactive_spending_alert` (agent_orchestrator.py:343-402) -/

/-- `proactive_spending_alert`. -/
def proactive_spending_alert (userId : String) (predictions : List Prediction)
    (_budgets : List Budget) (patterns : List Pattern) (gresp : GemResp) :
    PyDict × List Effect :=
  let reads := [Effect.getPredictions 20, Effect.getUserBudgets userId,
    Effect.analyzeSpendingPatterns userId]
  let alerts := patterns.filter (fun p => p.patternType == "anomaly")
  if !alerts.isEmpty || predictions.length > 15 then
    let alertMessage := pyStrip (extract_gemini_text gresp)
    if alertMessage ≠ "OK" then
      ([("status", .s "alert_sent"), ("message", .s alertMessage),
        ("anomalies", .i alerts.length)],
       reads ++ [Effect.geminiChat,
         Effect.notify userId "Alerta de Gasto" alertMessage "WARNING"])
    else
      ([("status", .s "no_alerts"), ("anomalies_detected", .i alerts.length)],
       reads ++ [Effect.geminiChat])
  else
    ([("status", .s "no_alerts"), ("anomalies_detected", .i alerts.length)], reads)

/-! ## `MockAgent` (mock_agent.py)

`random.choice` picks are modelled by arbitrary indices reduced modulo the
list length: two runs of the Python code are two choices of index. -/

/-- `MockAgent.responses` (mock_agent.py:10-19). -/
def mockResponses : List String :=
  [ "Entiendo tu consulta. Basándome en tus datos financieros, te recomiendo revisar tus gastos en la categoría de entretenimiento.",
    "Excelente pregunta. Para mejorar tus finanzas, considera establecer un presupuesto mensual y seguirlo de cerca.",
    "He analizado tu situación. Tu balance actual es positivo, pero podrías ahorrar más reduciendo gastos innecesarios.",
    "Según tus patrones de gasto, te sugiero crear una meta de ahorro automática del 10% de tus ingresos mensuales.",
    "Perfecto. Veo que has sido consistente con tus presupuestos. Continúa así y alcanzarás tus metas financieras.",
    "Interesante. Para optimizar tus finanzas, te recomiendo usar la función de categorización automática de gastos.",
    "Basándome en tu historial, tu mayor gasto es en alimentación. Considera preparar más comidas en casa para ahorrar.",
    "Excelente progreso. Has reducido tus gastos un 15% este mes comparado con el anterior. ¡Sigue así!" ]

/-- `MockAgent.financial_tips` (mock_agent.py:21-26). -/
def mockFinancialTips : List String :=
  [ "💡 Tip: Revisa tus suscripciones mensuales, muchas veces pagamos por servicios que no usamos.",
    "📊 Consejo: Establece un fondo de emergencia equivalente a 3-6 meses de gastos.",
    "💰 Recomendación: Automatiza tus ahorros para que se descuenten automáticamente cada mes.",
    "🎯 Meta: Intenta ahorrar al menos el 20% de tus ingresos mensuales." ]

/-- The keyword-bucket chain of `MockAgent._generate_response`
(mock_agent.py:52-74), applied to the lowered message: `some` canned reply on
the first matching bucket, `none` when no bucket matches. -/
def mockKeywordReply (ml : String) : Option String :=
  if containsAny ml ["hola", "buenos", "saludos"] then
    some "¡Hola! 👋 Soy tu asistente financiero FinWise. Estoy aquí para ayudarte a gestionar mejor tu dinero. ¿En qué puedo ayudarte hoy?"
  else if containsAny ml ["ahorro", "ahorrar", "guardar"] then
    some "Para mejorar tus ahorros, te recomiendo: 1) Establece una meta clara, 2) Automatiza transferencias mensuales, 3) Reduce gastos innecesarios. ¿Quieres que genere un plan de ahorro personalizado?"
  else if containsAny ml ["gasto", "gastos", "gastando"] then
    some "He revisado tus gastos recientes. Las categorías con mayor impacto son: Alimentación y Entretenimiento. Te sugiero establecer presupuestos para estas categorías y usar la función de alertas automáticas."
  else if containsAny ml ["presupuesto", "budget"] then
    some "Los presupuestos son clave para el control financiero. Te recomiendo: 1) Crear presupuestos por categoría, 2) Revisarlos semanalmente, 3) Ajustarlos según tus necesidades. ¿Quieres que ejecute una auditoría de tus presupuestos actuales?"
  else if containsAny ml ["meta", "objetivo", "goal"] then
    some "Establecer metas financieras es excelente. Para metas efectivas: 1) Hazlas específicas y medibles, 2) Establece plazos realistas, 3) Divide metas grandes en pasos pequeños. ¿Qué meta tienes en mente?"
  else if containsAny ml ["inversión", "invertir", "investment"] then
    some "Para inversiones, considera: 1) Tu perfil de riesgo, 2) Diversificación, 3) Horizonte temporal. Recuerda que toda inversión conlleva riesgos. Consulta con un asesor financiero profesional."
  else if containsAny ml ["deuda", "deber", "préstamo"] then
    some "Para manejar deudas efectivamente: 1) Lista todas tus deudas, 2) Prioriza las de mayor interés, 3) Considera consolidación si es viable. ¿Necesitas ayuda para crear un plan de pago?"
  else if containsAny ml ["ingreso", "ingresos", "salario"] then
    some "Para optimizar tus ingresos: 1) Registra todas las fuentes, 2) Busca oportunidades de ingresos adicionales, 3) Invierte en tu desarrollo profesional. El crecimiento de ingresos es tan importante como controlar gastos."
  else none

/-- `MockAgent._generate_response` (mock_agent.py:47-79).  `rIdx` and `tIdx`
are the two `random.choice` draws of one run. -/
def mock_generate_response (rIdx tIdx : Nat) (message : String) : String :=
  match mockKeywordReply (pyLower message) with
  | some reply => reply
  | none =>
      (mockResponses.getD (rIdx % mockResponses.length) "") ++ "\n\n"
        ++ (mockFinancialTips.getD (tIdx % mockFinancialTips.length) "")

/-- One entry of `MockAgent.chat`'s message list; `["text"]` is `text`. -/
structure MockMsg where
  text : String
  deriving DecidableEq, Repr

/-- `MockAgent.chat` (mock_agent.py:28-45): wraps `_generate_response` of the
latest message (empty string for an empty list) in the model-response shape. -/
def mock_chat (rIdx tIdx : Nat) (messages : List MockMsg) : GemResp :=
  let lastMessage := ((messages.getLast?).map MockMsg.text).getD ""
  ⟨[⟨⟨[⟨mock_generate_response rIdx tIdx lastMessage⟩]⟩⟩]⟩

/-- `MockAgent.generate_savings_plan`'s monthly amount (mock_agent.py:92):
`monthly = target / months if months > 0 else 0`, with the division checked
(`none` would mark a `ZeroDivisionError`). -/
def mock_savings_plan_monthly (target : ℚ) (months : Int) : Option ℚ :=
  if 0 < months then safeDiv target (months : ℚ) else some 0

/-! ## REST chat request validation (rest.py:16-44) -/

/-- An incoming message before pydantic validation. -/
structure RawChatMessage where
  role : String
  content : String
  deriving DecidableEq, Repr

/-- A validated `ChatMessageModel`. -/
structure ChatMessageModel where
  role : String
  content : String
  deriving DecidableEq, Repr

/-- `ChatMessageModel.validate_model` (rest.py:20-28): lower-and-strip the
role, require it in `{user, model, system}`, require non-blank content, strip
the content. -/
def validate_chat_message (m : RawChatMessage) : Except String ChatMessageModel :=
  let role := pyStrip (pyLower m.role)
  if ¬(role = "user" ∨ role = "model" ∨ role = "system") then
    .error "El rol debe ser user, model o system"
  else if m.content = "" ∨ pyStrip m.content = "" then
    .error "El contenido no puede estar vacío"
  else
    .ok ⟨role, pyStrip m.content⟩

/-- `ChatRequest.validate_request` (rest.py:35-44), composed with the item
validation pydantic runs on each incoming message first.  Returns the message
list the orchestrator sees. -/
def validate_chat_request (messages : Option (List RawChatMessage))
    (prompt : Option String) : Except String (List ChatMessageModel) :=
  let validated : Except String (Option (List ChatMessageModel)) :=
    match messages with
    | none => .ok none
    | some ms => (ms.mapM validate_chat_message).map some
  match validated with
  | .error e => .error e
  | .ok v =>
    match v with
    | some (m :: rest) => .ok (m :: rest)   -- `if self.messages:` — non-empty list is truthy
    | _ =>
      match prompt with
      | some p =>
        -- `if self.prompt and self.prompt.strip():`
        if p = "" then .error "Debes enviar al menos un mensaje o un prompt"
        else if pyStrip p = "" then .error "Debes enviar al menos un mensaje o un prompt"
        else (validate_chat_message ⟨"user", pyStrip p⟩).map (fun m => [m])
      | none => .error "Debes enviar al menos un mensaje o un prompt"

/-! ## `GeminiClient.chat` (gemini_client.py:46-92), up to the HTTP boundary

`messages` entries are Python dicts; the loop reads `m.get("role", "user")`
and `m.get("parts", [])`, so a message shaped `{"role": ..., "text": ...}`
contributes nothing to `contents`. -/

/-- One entry of the outgoing `contents` payload. -/
structure GContent where
  role : PyVal
  parts : List String

/-- `part.get("text", "").strip()` for one element of a message's `parts`
array; `some` when the stripped text is non-empty.  A non-dict part or a
non-string text raises (`AttributeError`, folded into `typeError`). -/
def partText (p : PyVal) : Except PyErr (Option String) :=
  match p with
  | .obj kvs =>
    match objGetD kvs "text" (.str "") with
    | .str t =>
      let t := pyStrip t
      .ok (if t = "" then none else some t)
    | _ => .error (.typeError "part text is not a string")
  | _ => .error (.typeError "part is not a dict")

/-- The `contents` entry one message contributes: `none` when its
`content_parts` list stays empty.  Iterating a non-list `parts` value is
modelled as a raise. -/
def msgContent (m : PyObj) : Except PyErr (Option GContent) :=
  let role := objGetD m "role" (.str "user")
  match objGetD m "parts" (.arr []) with
  | .arr xs =>
    (xs.mapM partText).map (fun ts =>
      let contentParts := ts.reduceOption
      if contentParts.isEmpty then none else some ⟨role, contentParts⟩)
  | _ => .error (.typeError "parts is not a list")

/-- The `contents` payload built by the loop at gemini_client.py:53-69. -/
def buildContents (messages : List PyObj) : Except PyErr (List GContent) :=
  (messages.mapM msgContent).map List.reduceOption

/-- One message's contribution to the empty-contents fallback prompt
(gemini_client.py:77-81): `part.get("text", "")` for every part, unstripped. -/
def fallbackMsgTexts (m : PyObj) : Except PyErr (List String) :=
  match objGetD m "parts" (.arr []) with
  | .arr xs =>
    xs.mapM (fun p =>
      show Except PyErr String from
      match p with
      | .obj kvs =>
        match objGetD kvs "text" (.str "") with
        | .str t => Except.ok t
        | _ => Except.error (PyErr.typeError "part text is not a string")
      | _ => Except.error (PyErr.typeError "part is not a dict"))
  | _ => .error (.typeError "parts is not a list")

/-- The texts joined for the empty-contents fallback prompt. -/
def fallbackTexts (messages : List PyObj) : Except PyErr (List String) :=
  (messages.mapM fallbackMsgTexts).map List.flatten

/-- Where `GeminiClient.chat` stands when it reaches the network boundary:
either it already returned (the empty-contents fallback) or it is about to
POST `{"contents": contents}`; everything after the POST depends on the
external HTTP response and is outside the embedding. -/
inductive ChatOutcome where
  | fallback (resp : GemResp)
  | http (contents : List GContent)

/-- The fixed fallback response body, parameterised by the combined prompt:
`{"candidates": [{"content": {"parts": [{"text": t}]}}]}`. -/
def fallbackResp (t : String) : GemResp :=
  ⟨[⟨⟨[⟨t⟩]⟩⟩]⟩

/-- `GeminiClient.chat` (gemini_client.py:46-92) up to the HTTP boundary.
`apiKey` is `settings.gemini_api_key` (`none` or the empty string are both
falsy and raise). -/
def gemini_chat (apiKey : Option String) (messages : List PyObj) :
    Except PyErr ChatOutcome :=
  if apiKey.getD "" = "" then
    .error (.runtimeError "GEMINI API key no configurada. Revisa GEMINI_API_KEY en el entorno.")
  else
    match buildContents messages with
    | .error e => .error e
    | .ok contents =>
      if contents.isEmpty then
        match fallbackTexts messages with
        | .error e => .error e
        | .ok ts =>
          let combinedPrompt := pyStrip (String.intercalate " " ts)
          .ok (.fallback (fallbackResp
            (if combinedPrompt = "" then "[No text provided]" else combinedPrompt)))
      else
        .ok (.http contents)

/-! ## Supporting lemmas -/

/-- `pyStripList` through Mathlib's `rdropWhile`. -/
theorem pyStripList_eq_rdropWhile (l : List Char) :
    pyStripList l = List.rdropWhile Char.isWhitespace (l.dropWhile Char.isWhitespace) :=
  rfl

/-- Stripping is idempotent. -/
theorem pyStripList_idem (l : List Char) : pyStripList (pyStripList l) = pyStripList l := by
  rw [pyStripList_eq_rdropWhile, pyStripList_eq_rdropWhile]
  set p := Char.isWhitespace
  set m := l.dropWhile p with hm
  have hdp : (List.rdropWhile p m).dropWhile p = List.rdropWhile p m := by
    rw [List.dropWhile_eq_self_iff]
    intro hl
    have hpre : List.rdropWhile p m <+: m := List.rdropWhile_prefix p m
    have hlen : 0 < m.length := lt_of_lt_of_le hl hpre.length_le
    have hget : (List.rdropWhile p m).get ⟨0, hl⟩ = m.get ⟨0, hlen⟩ := by
      simpa using List.IsPrefix.getElem hpre hl
    rw [hget]
    exact List.dropWhile_get_zero_not p l hlen
  rw [hdp, List.rdropWhile_idempotent]

/-- Stripping is idempotent (string form). -/
theorem pyStrip_idem (s : String) : pyStrip (pyStrip s) = pyStrip s :=
  congrArg String.mk (pyStripList_idem s.data)

/-- `_calculate_avg_expense` never divides by zero: the checked variant always
returns the unchecked value. -/
theorem calculate_avg_expense_checked_eq (ts : List Tx) :
    calculate_avg_expense_checked ts = some (calculate_avg_expense ts) := by
  unfold calculate_avg_expense_checked calculate_avg_expense safeDiv
  by_cases h : (negativeAmounts ts).isEmpty
  · simp [h]
  · have hlen : ((negativeAmounts ts).length : ℚ) ≠ 0 := by
      rw [List.isEmpty_iff] at h
      exact_mod_cast List.length_pos_of_ne_nil h |>.ne'
    simp [h, hlen]

/-! ## Claims -/

/-- The spec's description of `_calculate_avg_expense` (spec §3/§8): the
absolute value of the mean of the negative amounts; zero if there are none. -/
def specAvgExpense (transactions : List Tx) : ℚ :=
  let negs := negativeAmounts transactions
  if negs = [] then 0 else |negs.sum / (negs.length : ℚ)|

/-- C6: `_calculate_avg_expense` returns 0 on a list with no negative amount,
returns 40 on amounts `[-50, -30]`, and in general is the absolute value of
the mean of the negative amounts. -/
theorem calculate_avg_expense_spec :
    (∀ ts : List Tx, (∀ t ∈ ts, ¬ t.amount < 0) → calculate_avg_expense ts = 0)
    ∧ calculate_avg_expense [⟨-50⟩, ⟨-30⟩] = 40
    ∧ ∀ ts : List Tx, calculate_avg_expense ts = specAvgExpense ts := by
  refine ⟨fun ts h => ?_, ?_, fun ts => ?_⟩
  · have hnil : negativeAmounts ts = [] := by
      unfold negativeAmounts
      rw [List.filter_eq_nil_iff.mpr (by simpa using h)]
      rfl
    simp [calculate_avg_expense, hnil]
  · norm_num [calculate_avg_expense, negativeAmounts, List.filter]
  · unfold calculate_avg_expense specAvgExpense
    by_cases h : negativeAmounts ts = [] <;> simp [h, List.isEmpty_iff]

/-- Witness for C6 at concrete inputs. -/
theorem calculate_avg_expense_spec_witness :
    calculate_avg_expense [⟨50⟩, ⟨30⟩] = 0 ∧ calculate_avg_expense [⟨-50⟩, ⟨-30⟩] = 40 :=
  ⟨calculate_avg_expense_spec.1 [⟨50⟩, ⟨30⟩] (by norm_num), calculate_avg_expense_spec.2.1⟩

/-- C5: `generate_savings_plan` with `months = 0` reaches no division by zero
for any fetched accounts and transactions (its only division, inside
`_calculate_avg_expense`, is guarded), and the mock plan's monthly amount for
`months = 0` is 0. -/
theorem generate_savings_plan_months_zero (userId : String) (target : ℚ)
    (accounts : List Account) (transactions : List Tx) (gresp : GemResp) :
    generate_savings_plan_checked userId target 0 accounts transactions gresp
      = some (generate_savings_plan userId target 0 accounts transactions gresp)
    ∧ mock_savings_plan_monthly target 0 = some 0 := by
  constructor
  · rw [generate_savings_plan_checked, calculate_avg_expense_checked_eq]
    rfl
  · simp [mock_savings_plan_monthly]

/-- C3: in `run_budget_audit` with a non-empty budget list, a WARNING
notification whose message is the first 200 characters of the model's
extracted text is sent iff that text contains "alerta" or "excedido"
case-insensitively; the result is status `completed` with the raw model text
and the number of budgets. -/
theorem run_budget_audit_alert_notification (userId : String)
    (budgets : List Budget) (transactions : List Tx) (gresp : GemResp)
    (hb : budgets ≠ []) :
    (Effect.notify userId "Alerta de Presupuesto"
        ((extract_gemini_text gresp).take 200) "WARNING"
        ∈ (run_budget_audit userId budgets transactions gresp).2
      ↔ (strContains (pyLower (extract_gemini_text gresp)) "alerta" = true
          ∨ strContains (pyLower (extract_gemini_text gresp)) "excedido" = true))
    ∧ (run_budget_audit userId budgets transactions gresp).1
        = [("status", .s "completed"), ("analysis", .s (extract_gemini_text gresp)),
           ("budgets_reviewed", .i budgets.length)] := by
  have hbe : budgets.isEmpty = false := by
    simpa [List.isEmpty_iff] using hb
  by_cases hc : (strContains (pyLower (extract_gemini_text gresp)) "alerta"
      || strContains (pyLower (extract_gemini_text gresp)) "excedido") = true
  · rw [Bool.or_eq_true] at hc
    constructor
    · simp [run_budget_audit, hbe, Bool.or_eq_true, hc]
    · simp [run_budget_audit, hbe]
  · have hc' := hc
    rw [Bool.or_eq_true] at hc'
    push_neg at hc'
    constructor
    · simp only [run_budget_audit, hbe, Bool.false_eq_true, if_false,
        Bool.or_eq_true, hc, List.append_nil]
      simp [hc', Bool.or_eq_true]
    · simp [run_budget_audit, hbe]

/-- Witness for C3 at a concrete input: one budget, a model reply containing
"alerta". -/
theorem run_budget_audit_alert_notification_witness :
    (([⟨"Alimentación", 500, "2025-01-01", "2025-01-31"⟩] : List Budget) ≠ [])
    ∧ ((Effect.notify "user123" "Alerta de Presupuesto"
          ((extract_gemini_text (fallbackResp "alerta de presupuesto")).take 200) "WARNING"
          ∈ (run_budget_audit "user123" [⟨"Alimentación", 500, "2025-01-01", "2025-01-31"⟩]
              [⟨-50⟩] (fallbackResp "alerta de presupuesto")).2
        ↔ (strContains (pyLower (extract_gemini_text (fallbackResp "alerta de presupuesto"))) "alerta" = true
            ∨ strContains (pyLower (extract_gemini_text (fallbackResp "alerta de presupuesto"))) "excedido" = true))
      ∧ (run_budget_audit "user123" [⟨"Alimentación", 500, "2025-01-01", "2025-01-31"⟩]
            [⟨-50⟩] (fallbackResp "alerta de presupuesto")).1
          = [("status", .s "completed"),
             ("analysis", .s (extract_gemini_text (fallbackResp "alerta de presupuesto"))),
             ("budgets_reviewed", .i 1)]) :=
  ⟨by simp,
   run_budget_audit_alert_notification "user123" _ _ _ (by simp)⟩

/-- C4: `proactive_spending_alert` consults the model iff some pattern has
type "anomaly" or more than 15 predictions were fetched; a stripped reply
"OK" (or no consultation) yields `no_alerts` with the anomaly count and no
notification; otherwise one WARNING notification with the model's message is
sent and the result is `alert_sent` with that message and the anomaly
count. -/
theorem proactive_spending_alert_spec (userId : String)
    (predictions : List Prediction) (budgets : List Budget)
    (patterns : List Pattern) (gresp : GemResp) :
    (Effect.geminiChat
        ∈ (proactive_spending_alert userId predictions budgets patterns gresp).2
      ↔ (!(patterns.filter (fun p => p.patternType == "anomaly")).isEmpty
          || predictions.length > 15) = true)
    ∧ ((!(patterns.filter (fun p => p.patternType == "anomaly")).isEmpty
          || predictions.length > 15) = true →
        pyStrip (extract_gemini_text gresp) ≠ "OK" →
        (proactive_spending_alert userId predictions budgets patterns gresp).1
          = [("status", .s "alert_sent"),
             ("message", .s (pyStrip (extract_gemini_text gresp))),
             ("anomalies", .i (patterns.filter (fun p => p.patternType == "anomaly")).length)]
        ∧ Effect.notify userId "Alerta de Gasto" (pyStrip (extract_gemini_text gresp)) "WARNING"
            ∈ (proactive_spending_alert userId predictions budgets patterns gresp).2)
    ∧ (((!(patterns.filter (fun p => p.patternType == "anomaly")).isEmpty
          || predictions.length > 15) = false
        ∨ pyStrip (extract_gemini_text gresp) = "OK") →
        (proactive_spending_alert userId predictions budgets patterns gresp).1
          = [("status", .s "no_alerts"),
             ("anomalies_detected", .i (patterns.filter (fun p => p.patternType == "anomaly")).length)]
        ∧ ∀ u t m ty, Effect.notify u t m ty
            ∉ (proactive_spending_alert userId predictions budgets patterns gresp).2) := by
  by_cases hc : (!(patterns.filter (fun p => p.patternType == "anomaly")).isEmpty
      || predictions.length > 15) = true
  · by_cases hm : pyStrip (extract_gemini_text gresp) = "OK"
    · refine ⟨?_, ?_, ?_⟩
      · simp [proactive_spending_alert, hc, hm]
      · intro _ hne
        exact absurd hm hne
      · intro _
        constructor
        · simp [proactive_spending_alert, hc, hm]
        · intro u t m ty
          simp [proactive_spending_alert, hc, hm]
    · refine ⟨?_, ?_, ?_⟩
      · simp [proactive_spending_alert, hc, hm]
      · intro _ _
        constructor
        · simp [proactive_spending_alert, hc, hm]
        · simp [proactive_spending_alert, hc, hm]
      · intro h
        rcases h with h | h
        · rw [hc] at h
          exact absurd h (by simp)
        · exact absurd h hm
  · have hcf : (!(patterns.filter (fun p => p.patternType == "anomaly")).isEmpty
        || predictions.length > 15) = false := by
      simpa using hc
    refine ⟨?_, ?_, ?_⟩
    · simp [proactive_spending_alert, hcf]
    · intro h
      exact absurd h hc
    · intro _
      constructor
      · simp [proactive_spending_alert, hcf]
      · intro u t m ty
        simp [proactive_spending_alert, hcf]

/-- Witness for C4 at a concrete input: one anomaly pattern, a reply other
than "OK". -/
theorem proactive_spending_alert_spec_witness :
    ((!(([⟨"anomaly"⟩] : List Pattern).filter (fun p => p.patternType == "anomaly")).isEmpty
        || ([] : List Prediction).length > 15) = true)
    ∧ (pyStrip (extract_gemini_text (fallbackResp "Cuidado con tus gastos")) ≠ "OK")
    ∧ ((proactive_spending_alert "user123" [] [] [⟨"anomaly"⟩]
          (fallbackResp "Cuidado con tus gastos")).1
        = [("status", .s "alert_sent"),
           ("message", .s (pyStrip (extract_gemini_text (fallbackResp "Cuidado con tus gastos")))),
           ("anomalies", .i (([⟨"anomaly"⟩] : List Pattern).filter
              (fun p => p.patternType == "anomaly")).length)]
        ∧ Effect.notify "user123" "Alerta de Gasto"
            (pyStrip (extract_gemini_text (fallbackResp "Cuidado con tus gastos"))) "WARNING"
            ∈ (proactive_spending_alert "user123" [] [] [⟨"anomaly"⟩]
                (fallbackResp "Cuidado con tus gastos")).2) :=
  ⟨by decide, by decide,
   (proactive_spending_alert_spec "user123" [] [] [⟨"anomaly"⟩]
      (fallbackResp "Cuidado con tus gastos")).2.1 (by decide) (by decide)⟩

/-- C1 (code bug): `smart_categorize_transaction` raises `TypeError` at the
`classify_transaction` call — the orchestrator passes one positional argument
where the gateway method requires two — so it never reaches the confidence
branch; evaluated here at a concrete input. -/
theorem smart_categorize_transaction_raises :
    smart_categorize_transaction "user123" "Taxi aeropuerto" "acc1" (-30)
        ⟨some "Transporte", some 0.9⟩ (fallbackResp "Transporte") ⟨"t2"⟩
      = .error (.typeError
          "classify_transaction() missing 1 required positional argument: amount") :=
  rfl

/-- C2: `process_document_and_register` with an empty OCR text returns status
"error" having called only the OCR client (no model call, no registration);
and whenever the model's extracted text has no brace span, or the span is not
valid JSON, it returns status "error" without registering a transaction. -/
theorem process_document_error_paths (jsonLoads : String → Option PyObj)
    (userId documentUrl accountId : String) (ocr : OcrResp) (gresp : GemResp)
    (txr : TxResp) :
    (ocr.getText = "" →
      process_document_and_register jsonLoads userId documentUrl accountId ocr gresp txr
        = .ok (docNoTextError, [Effect.mistralOcr documentUrl]))
    ∧ ((braceSpan (extract_gemini_text gresp) = none
        ∨ ∃ span, braceSpan (extract_gemini_text gresp) = some span ∧ jsonLoads span = none) →
      ∃ d effs,
        process_document_and_register jsonLoads userId documentUrl accountId ocr gresp txr
          = .ok (d, effs)
        ∧ dictLookup d "status" = some (.s "error")
        ∧ ∀ aid, Effect.registerTx aid ∉ effs) := by
  constructor
  · intro h
    simp [process_document_and_register, h]
  · intro h
    have hparse : parse_transaction_from_gemini jsonLoads gresp = none := by
      unfold parse_transaction_from_gemini
      rcases h with h | ⟨span, hspan, hjl⟩
      · rw [h]; rfl
      · rw [hspan]
        simpa using hjl
    by_cases ho : ocr.getText = ""
    · exact ⟨docNoTextError, [Effect.mistralOcr documentUrl],
        by simp [process_document_and_register, ho],
        by simp [docNoTextError, dictLookup],
        by intro aid; simp⟩
    · exact ⟨docNoParseError, [Effect.mistralOcr documentUrl, Effect.geminiChat],
        by simp [process_document_and_register, ho, hparse],
        by simp [docNoParseError, dictLookup],
        by intro aid; simp⟩

/-- Witness for C2 at a concrete input: a model reply with no brace span and
a non-empty OCR text. -/
theorem process_document_error_paths_witness :
    ((OcrResp.mk (some "")).getText = ""
      ∧ process_document_and_register (fun _ => none) "user123" "http" "acc1"
          ⟨some ""⟩ (fallbackResp "sin json") ⟨"t2"⟩
          = .ok (docNoTextError, [Effect.mistralOcr "http"]))
    ∧ ((braceSpan (extract_gemini_text (fallbackResp "sin json")) = none
        ∨ ∃ span, braceSpan (extract_gemini_text (fallbackResp "sin json")) = some span
            ∧ (fun _ : String => (none : Option PyObj)) span = none)
      ∧ ∃ d effs,
          process_document_and_register (fun _ => none) "user123" "http" "acc1"
            ⟨some "Total: 30 Bs."⟩ (fallbackResp "sin json") ⟨"t2"⟩
            = .ok (d, effs)
          ∧ dictLookup d "status" = some (.s "error")
          ∧ ∀ aid, Effect.registerTx aid ∉ effs) :=
  ⟨⟨rfl,
    (process_document_error_paths (fun _ => none) "user123" "http" "acc1"
      ⟨some ""⟩ (fallbackResp "sin json") ⟨"t2"⟩).1 rfl⟩,
   ⟨Or.inl (by decide),
    (process_document_error_paths (fun _ => none) "user123" "http" "acc1"
      ⟨some "Total: 30 Bs."⟩ (fallbackResp "sin json") ⟨"t2"⟩).2
      (Or.inl (by decide))⟩⟩

/-- The result-map invariant of claim C8, for runs that return normally:
`status` is a success-family tag or "error" with a `message` field. -/
def statusInvariant (d : PyDict) : Prop :=
  ∃ st, dictLookup d "status" = some (.s st)
    ∧ (st ∈ (["success", "completed", "no_budgets", "no_alerts", "alert_sent"] : List String)
       ∨ (st = "error" ∧ ∃ m, dictLookup d "message" = some (.s m)))

/-- Counterexample to C8 as stated: `generate_financial_insights` does not
return a status map at all when a fetched goal has target amount 0 — prompt
construction (`_format_goals`) divides by the target and raises
`ZeroDivisionError`. -/
theorem generate_financial_insights_zero_target_raises :
    generate_financial_insights "user123" [] [] [] [⟨"Meta", 0, 10⟩] []
        (fallbackResp "analysis") "2026-10-12T00:00:00"
      = .error .zeroDivisionError :=
  rfl

/-- C8 (amended): every orchestrator workflow run that returns normally
(rather than propagating an exception) yields a string-keyed map whose
`status` is a success-family tag or "error" with a `message`.  (The
smart-categorize conjunct is vacuous: that workflow always raises at the
mis-aritied classify call.) -/
theorem orchestrator_status_invariant :
    (∀ uid budgets txs gresp,
      statusInvariant (run_budget_audit uid budgets txs gresp).1)
    ∧ (∀ jl uid url aid ocr gresp txr d effs,
        process_document_and_register jl uid url aid ocr gresp txr = .ok (d, effs)
        → statusInvariant d)
    ∧ (∀ uid target months accounts txs gresp,
        statusInvariant (generate_savings_plan uid target months accounts txs gresp).1)
    ∧ (∀ uid txt aid amt cls gresp txr d effs,
        smart_categorize_transaction uid txt aid amt cls gresp txr = .ok (d, effs)
        → statusInvariant d)
    ∧ (∀ uid pats fc budgets goals accounts gresp now d effs,
        generate_financial_insights uid pats fc budgets goals accounts gresp now = .ok (d, effs)
        → statusInvariant d)
    ∧ (∀ uid preds budgets patterns gresp,
        statusInvariant (proactive_spending_alert uid preds budgets patterns gresp).1) := by
  refine ⟨?_, ?_, ?_, ?_, ?_, ?_⟩
  · intro uid budgets txs gresp
    by_cases hb : budgets.isEmpty
    · exact ⟨"no_budgets", by simp [run_budget_audit, hb, dictLookup], Or.inl (by simp)⟩
    · exact ⟨"completed", by simp [run_budget_audit, hb, dictLookup], Or.inl (by simp)⟩
  · intro jl uid url aid ocr gresp txr d effs h
    unfold process_document_and_register at h
    have herr : statusInvariant docNoTextError := by
      exact ⟨"error", by simp [docNoTextError, dictLookup],
        Or.inr ⟨rfl, "No se pudo extraer texto del documento.",
          by simp [docNoTextError, dictLookup]⟩⟩
    have herr2 : statusInvariant docNoParseError := by
      exact ⟨"error", by simp [docNoParseError, dictLookup],
        Or.inr ⟨rfl, "No se pudo interpretar el documento.",
          by simp [docNoParseError, dictLookup]⟩⟩
    by_cases ho : ocr.getText = ""
    · rw [if_pos ho] at h
      simp only [Except.ok.injEq, Prod.mk.injEq] at h
      obtain ⟨rfl, rfl⟩ := h
      exact herr
    · rw [if_neg ho] at h
      cases hp : parse_transaction_from_gemini jl gresp with
      | none =>
        rw [hp] at h
        simp only [Except.ok.injEq, Prod.mk.injEq] at h
        obtain ⟨rfl, rfl⟩ := h
        exact herr2
      | some parsed =>
        rw [hp] at h
        by_cases he : parsed.isEmpty
        · simp only [he, if_true, Except.ok.injEq, Prod.mk.injEq] at h
          obtain ⟨rfl, rfl⟩ := h
          exact herr2
        · simp only [he, Bool.false_eq_true, if_false, ite_false] at h
          cases ha : keyGet parsed "amount" with
          | error e => rw [ha] at h; simp at h
          | ok amount =>
            rw [ha] at h
            cases hcat : keyGet parsed "category" with
            | error e => rw [hcat] at h; simp at h
            | ok category =>
              rw [hcat] at h
              cases hdesc : keyGet parsed "description" with
              | error e => rw [hdesc] at h; simp at h
              | ok descr =>
                rw [hdesc] at h
                simp only [Except.ok.injEq, Prod.mk.injEq] at h
                obtain ⟨rfl, rfl⟩ := h
                exact ⟨"success", by simp [dictLookup], Or.inl (by simp)⟩
  · intro uid target months accounts txs gresp
    exact ⟨"success", by simp [generate_savings_plan, dictLookup], Or.inl (by simp)⟩
  · intro uid txt aid amt cls gresp txr d effs h
    simp [smart_categorize_transaction, smart_categorize_classify_argc,
      classify_transaction_params] at h
  · intro uid pats fc budgets goals accounts gresp now d effs h
    unfold generate_financial_insights at h
    cases hg : format_goals_check goals with
    | error e => rw [hg] at h; simp at h
    | ok u =>
      rw [hg] at h
      simp only [Except.ok.injEq, Prod.mk.injEq] at h
      obtain ⟨rfl, rfl⟩ := h
      exact ⟨"success", by simp [dictLookup], Or.inl (by simp)⟩
  · intro uid preds budgets patterns gresp
    unfold proactive_spending_alert
    by_cases hc : (!(patterns.filter (fun p => p.patternType == "anomaly")).isEmpty
        || preds.length > 15) = true
    · by_cases hm : pyStrip (extract_gemini_text gresp) = "OK"
      · exact ⟨"no_alerts", by simp [hc, hm, dictLookup], Or.inl (by simp)⟩
      · exact ⟨"alert_sent", by simp [hc, hm, dictLookup], Or.inl (by simp)⟩
    · exact ⟨"no_alerts", by simp [hc, dictLookup], Or.inl (by simp)⟩

/-- Witness for C8's amended invariant: the hypotheses of the fallible
conjuncts discharged at concrete normally-returning runs. -/
theorem orchestrator_status_invariant_witness :
    (process_document_and_register (fun _ => none) "user123" "http" "acc1"
        ⟨some ""⟩ (fallbackResp "x") ⟨"t2"⟩
      = .ok (docNoTextError, [Effect.mistralOcr "http"])
      ∧ statusInvariant docNoTextError)
    ∧ statusInvariant (run_budget_audit "user123" [] [] (fallbackResp "x")).1 :=
  ⟨⟨rfl,
    orchestrator_status_invariant.2.1 (fun _ => none) "user123" "http" "acc1"
      ⟨some ""⟩ (fallbackResp "x") ⟨"t2"⟩ docNoTextError [Effect.mistralOcr "http"] rfl⟩,
   orchestrator_status_invariant.1 "user123" [] [] (fallbackResp "x")⟩

/-- Validating the message the prompt branch constructs succeeds and strips
once (stripping is idempotent). -/
theorem validate_chat_message_user (c : String) (hc : pyStrip c ≠ "") :
    validate_chat_message ⟨"user", pyStrip c⟩ = .ok ⟨"user", pyStrip c⟩ := by
  unfold validate_chat_message
  have hrole : pyStrip (pyLower "user") = "user" := rfl
  rw [hrole]
  rw [if_neg (fun hcond => hcond (Or.inl rfl))]
  rw [if_neg (by
    rw [pyStrip_idem]
    exact not_or.mpr ⟨hc, hc⟩)]
  rw [pyStrip_idem]

/-- C7: a chat request carrying only a non-blank `prompt` (messages absent or
empty) validates to the same message list as a request whose `messages` field
is the single user-role message with the trimmed prompt content — namely
`[{role: "user", content: prompt.strip()}]`. -/
theorem chat_prompt_equiv (p : String) (q : Option String) (hp : pyStrip p ≠ "") :
    validate_chat_request none (some p)
      = validate_chat_request (some [⟨"user", pyStrip p⟩]) q
    ∧ validate_chat_request (some []) (some p)
      = validate_chat_request (some [⟨"user", pyStrip p⟩]) q
    ∧ validate_chat_request none (some p) = .ok [⟨"user", pyStrip p⟩] := by
  have hpe : p ≠ "" := by
    intro h
    apply hp
    rw [h]
    rfl
  have hv := validate_chat_message_user p hp
  have hA : validate_chat_request none (some p) = .ok [⟨"user", pyStrip p⟩] := by
    show (if p = "" then Except.error "Debes enviar al menos un mensaje o un prompt"
      else if pyStrip p = "" then Except.error "Debes enviar al menos un mensaje o un prompt"
      else (validate_chat_message ⟨"user", pyStrip p⟩).map (fun m => [m]))
      = .ok [⟨"user", pyStrip p⟩]
    rw [if_neg hpe, if_neg hp, hv]
    rfl
  have hA0 : validate_chat_request (some []) (some p) = .ok [⟨"user", pyStrip p⟩] := by
    show (if p = "" then Except.error "Debes enviar al menos un mensaje o un prompt"
      else if pyStrip p = "" then Except.error "Debes enviar al menos un mensaje o un prompt"
      else (validate_chat_message ⟨"user", pyStrip p⟩).map (fun m => [m]))
      = .ok [⟨"user", pyStrip p⟩]
    rw [if_neg hpe, if_neg hp, hv]
    rfl
  have hB : validate_chat_request (some [⟨"user", pyStrip p⟩]) q
      = .ok [⟨"user", pyStrip p⟩] := by
    have hval : (match some [(⟨"user", pyStrip p⟩ : RawChatMessage)] with
        | none => Except.ok none
        | some ms => Except.map some (List.mapM validate_chat_message ms))
        = Except.ok (some [(⟨"user", pyStrip p⟩ : ChatMessageModel)]) := by
      show Except.map some (List.mapM validate_chat_message [⟨"user", pyStrip p⟩])
          = Except.ok (some [⟨"user", pyStrip p⟩])
      rw [List.mapM_cons, hv]
      rfl
    unfold validate_chat_request
    rw [hval]
  exact ⟨hA.trans hB.symm, hA0.trans hB.symm, hA⟩

/-- Witness for C7 at the concrete prompt `"  hola  "`. -/
theorem chat_prompt_equiv_witness :
    pyStrip "  hola  " ≠ ""
    ∧ (validate_chat_request none (some "  hola  ")
        = validate_chat_request (some [⟨"user", pyStrip "  hola  "⟩]) none
      ∧ validate_chat_request (some []) (some "  hola  ")
        = validate_chat_request (some [⟨"user", pyStrip "  hola  "⟩]) none
      ∧ validate_chat_request none (some "  hola  ")
        = .ok [⟨"user", pyStrip "  hola  "⟩]) :=
  ⟨by decide, chat_prompt_equiv "  hola  " none (by decide)⟩

/-- Counterexample to C9 as stated: on a message hitting no keyword bucket,
two runs of `MockAgent.chat` (two draws of `random.choice`) differ. -/
theorem mock_chat_not_deterministic :
    mock_chat 0 0 [⟨"zzz"⟩] ≠ mock_chat 1 0 [⟨"zzz"⟩] := by
  decide

/-- C9 (amended): `MockAgent.chat` is deterministic on every message list
whose latest message matches one of the eight keyword buckets; with no bucket
match the reply mixes two random draws (a canned response and a tip) and two
runs may differ. -/
theorem mock_chat_deterministic_on_keyword (r1 t1 r2 t2 : Nat)
    (messages : List MockMsg)
    (h : (mockKeywordReply (pyLower (((messages.getLast?).map MockMsg.text).getD ""))).isSome
      = true) :
    mock_chat r1 t1 messages = mock_chat r2 t2 messages := by
  obtain ⟨reply, hr⟩ := Option.isSome_iff_exists.mp h
  simp only [mock_chat, mock_generate_response]
  rw [hr]

/-- Witness for C9's amended determinism at the concrete message "hola". -/
theorem mock_chat_deterministic_on_keyword_witness :
    ((mockKeywordReply (pyLower (((([⟨"hola"⟩] : List MockMsg).getLast?).map MockMsg.text).getD ""))).isSome
      = true)
    ∧ mock_chat 0 0 [⟨"hola"⟩] = mock_chat 7 3 [⟨"hola"⟩] :=
  ⟨by decide, mock_chat_deterministic_on_keyword 0 0 7 3 [⟨"hola"⟩] (by decide)⟩

/-- With no `parts` key anywhere, the contents loop appends nothing. -/
theorem buildContents_no_parts (messages : List PyObj)
    (hparts : ∀ m ∈ messages, objGet m "parts" = none) :
    buildContents messages = .ok [] := by
  induction messages with
  | nil => rfl
  | cons m ms ih =>
    have hm : objGet m "parts" = none := hparts m (List.mem_cons_self m ms)
    have ih' := ih (fun x hx => hparts x (List.mem_cons_of_mem m hx))
    have hmc : msgContent m = .ok none := by
      unfold msgContent objGetD
      rw [hm]
      rfl
    unfold buildContents at ih' ⊢
    rw [List.mapM_cons, hmc]
    cases hms : ms.mapM msgContent with
    | error e =>
      rw [hms] at ih'
      simp [Except.map] at ih'
    | ok l =>
      rw [hms] at ih'
      simp only [Except.map, Except.ok.injEq] at ih'
      show Except.ok ((none :: l).reduceOption) = Except.ok ([] : List GContent)
      rw [List.reduceOption_cons_of_none, ih']

/-- With no `parts` key anywhere, the fallback prompt joins no text. -/
theorem fallbackTexts_no_parts (messages : List PyObj)
    (hparts : ∀ m ∈ messages, objGet m "parts" = none) :
    fallbackTexts messages = .ok [] := by
  induction messages with
  | nil => rfl
  | cons m ms ih =>
    have hm : objGet m "parts" = none := hparts m (List.mem_cons_self m ms)
    have ih' := ih (fun x hx => hparts x (List.mem_cons_of_mem m hx))
    have hmt : fallbackMsgTexts m = .ok [] := by
      unfold fallbackMsgTexts objGetD
      rw [hm]
      rfl
    unfold fallbackTexts at ih' ⊢
    rw [List.mapM_cons, hmt]
    cases hms : ms.mapM fallbackMsgTexts with
    | error e =>
      rw [hms] at ih'
      simp [Except.map] at ih'
    | ok l =>
      rw [hms] at ih'
      simp only [Except.map, Except.ok.injEq] at ih'
      show Except.ok (List.flatten ([] :: l)) = Except.ok ([] : List String)
      rw [List.flatten_cons, List.nil_append, ih']

/-- C10: with a configured key, `GeminiClient.chat` on the message shape every
caller in this service builds (`text` at top level, no `parts` key) issues no
HTTP request: it returns the fixed fallback whose single candidate text is
"[No text provided]". -/
theorem gemini_chat_text_only_fallback (apiKey : String) (messages : List PyObj)
    (hkey : ¬ apiKey = "") (_hne : messages ≠ [])
    (_htext : ∀ m ∈ messages, ∃ t, objGet m "text" = some (.str t))
    (hparts : ∀ m ∈ messages, objGet m "parts" = none) :
    gemini_chat (some apiKey) messages
      = .ok (.fallback (fallbackResp "[No text provided]")) := by
  unfold gemini_chat
  rw [if_neg (show ¬((some apiKey).getD "" = "") from hkey),
    buildContents_no_parts messages hparts,
    fallbackTexts_no_parts messages hparts]
  rfl

/-- Witness for C10 at one user message shaped as the orchestrator builds it. -/
theorem gemini_chat_text_only_fallback_witness :
    (¬ ("k" : String) = "")
    ∧ ([[("role", PyVal.str "user"), ("text", PyVal.str "hola")]] : List PyObj) ≠ []
    ∧ (∀ m ∈ ([[("role", PyVal.str "user"), ("text", PyVal.str "hola")]] : List PyObj),
        ∃ t, objGet m "text" = some (.str t))
    ∧ (∀ m ∈ ([[("role", PyVal.str "user"), ("text", PyVal.str "hola")]] : List PyObj),
        objGet m "parts" = none)
    ∧ gemini_chat (some "k") [[("role", PyVal.str "user"), ("text", PyVal.str "hola")]]
        = .ok (.fallback (fallbackResp "[No text provided]")) :=
  ⟨by decide, List.cons_ne_nil _ _,
   by
    intro m hm
    rw [List.mem_singleton] at hm
    subst hm
    exact ⟨"hola", rfl⟩,
   by
    intro m hm
    rw [List.mem_singleton] at hm
    subst hm
    rfl,
   gemini_chat_text_only_fallback "k" _ (by decide) (List.cons_ne_nil _ _)
     (by
       intro m hm
       rw [List.mem_singleton] at hm
       subst hm
       exact ⟨"hola", rfl⟩)
     (by
       intro m hm
       rw [List.mem_singleton] at hm
       subst hm
       rfl)⟩

end AgentsService
